import Mathlib

/-!
Shallow embedding of the `Robot` class (R2D2-like figure) from the
web-graphics repository, together with proofs about its geometry
construction, motion clamping and vitality (energy / points / death)
behaviour.

Modelling conventions:
* JavaScript numbers are embedded as `ℚ`; `Math.PI` is embedded as the
  exact rational value of the IEEE-754 double `Math.PI`.
* A THREE.js mesh node is embedded as `Mesh`: its shape parameters
  (`Geom`), local transform (position / rotation / scale), the
  `castShadow` flag and its list of children.  `new THREE.Mesh(...)`
  corresponds to `Mesh.new`, field assignments to the `set*` helpers and
  `.add` to `Mesh.add`.  The vertex-level `geometry.applyMatrix` call on
  the eye mutates vertex data only and is not part of any node transform,
  so it is not modelled.
* The source mutates shared objects: the nodes stored in the named slots
  (`leftFemur`, ..., `head`) are the same objects that sit in the foot
  subtrees.  Every read and write performed by the class's set methods
  goes through the named slots, so the embedding tracks the slots as the
  authoritative mutable state and keeps the constructed subtrees as the
  record of the construction-time structure.
* Lights, cameras and materials are rendering-library collaborators that
  the claims do not touch; they are not modelled.
-/

/-- Exact rational value of the IEEE-754 double `Math.PI`. -/
def mathPI : ℚ := 884279719003555 / 281474976710656

/-- `degToRad(degrees)`: converts angles in degrees to angles in radians. -/
def degToRad (degrees : ℚ) : ℚ := degrees * mathPI / 180

/-- A THREE.js vector of three numbers (position / rotation / scale). -/
structure Vec3 where
  x : ℚ
  y : ℚ
  z : ℚ

/-- Which robot part a mesh node represents. -/
inductive PartKind where
  | foot
  | femur
  | shoulder
  | body
  | head
  | eye

/-- Shape parameters handed to the THREE.js geometry constructors. -/
inductive Geom where
  | cylinder (radiusTop radiusBottom cylHeight : ℚ) (radialSegments heightSegments : ℕ)
  | sphere (radius : ℚ) (widthSegments heightSegments : ℕ)
  | box (sizeX sizeY sizeZ : ℚ)

/-- A mesh node of the scene graph: shape, local transform, shadow flag
and children.  (A recursive type, hence an inductive rather than a
structure.) -/
inductive Mesh where
  | mk (kind : PartKind) (geometry : Geom) (position : Vec3) (rotation : Vec3)
       (scale : Vec3) (castShadow : Bool) (children : List Mesh)

def Mesh.kind : Mesh → PartKind
  | .mk k _ _ _ _ _ _ => k

def Mesh.geometry : Mesh → Geom
  | .mk _ g _ _ _ _ _ => g

def Mesh.position : Mesh → Vec3
  | .mk _ _ p _ _ _ _ => p

def Mesh.rotation : Mesh → Vec3
  | .mk _ _ _ r _ _ _ => r

def Mesh.scale : Mesh → Vec3
  | .mk _ _ _ _ s _ _ => s

def Mesh.castShadow : Mesh → Bool
  | .mk _ _ _ _ _ c _ => c

def Mesh.children : Mesh → List Mesh
  | .mk _ _ _ _ _ _ ch => ch

/-- `new THREE.Mesh(geometry, material)`: a fresh node at the origin with
unit scale, no rotation, `castShadow = false` and no children. -/
def Mesh.new (kind : PartKind) (geometry : Geom) : Mesh :=
  .mk kind geometry ⟨0, 0, 0⟩ ⟨0, 0, 0⟩ ⟨1, 1, 1⟩ false []

/-- `node.position.x = v` -/
def Mesh.setPositionX : Mesh → ℚ → Mesh
  | .mk k g p r s c ch, v => .mk k g { p with x := v } r s c ch

/-- `node.position.y = v` -/
def Mesh.setPositionY : Mesh → ℚ → Mesh
  | .mk k g p r s c ch, v => .mk k g { p with y := v } r s c ch

/-- `node.position.z = v` -/
def Mesh.setPositionZ : Mesh → ℚ → Mesh
  | .mk k g p r s c ch, v => .mk k g { p with z := v } r s c ch

/-- `node.rotation.x = v` -/
def Mesh.setRotationX : Mesh → ℚ → Mesh
  | .mk k g p r s c ch, v => .mk k g p { r with x := v } s c ch

/-- `node.rotation.y = v` -/
def Mesh.setRotationY : Mesh → ℚ → Mesh
  | .mk k g p r s c ch, v => .mk k g p { r with y := v } s c ch

/-- `node.scale.set(a, b, c)` -/
def Mesh.setScale : Mesh → ℚ → ℚ → ℚ → Mesh
  | .mk k g p r _ c ch, a, b, c3 => .mk k g p r ⟨a, b, c3⟩ c ch

/-- `node.castShadow = b` -/
def Mesh.setCastShadow : Mesh → Bool → Mesh
  | .mk k g p r s _ ch, b => .mk k g p r s b ch

/-- `parent.add(child)` -/
def Mesh.add : Mesh → Mesh → Mesh
  | .mk k g p r s c ch, child => .mk k g p r s c (ch ++ [child])

/-- The dimension fields computed in the constructor and read by the
`create*` methods (`this.robotHeight`, ..., `this.headRadius`). -/
structure Dims where
  robotHeight : ℚ
  robotWidth : ℚ
  legHeight : ℚ
  bodyHeight : ℚ
  bodyWidth : ℚ
  headRadius : ℚ

/-- The named part slots the `create*` methods write into
(`this.rightFemur`, ..., `this.head`); `none` models the still-undefined
fields before construction reaches them. -/
structure Slots where
  rightFemur : Option Mesh
  leftFemur : Option Mesh
  rightShoulder : Option Mesh
  leftShoulder : Option Mesh
  body : Option Mesh
  head : Option Mesh

def Slots.empty : Slots := ⟨none, none, none, none, none, none⟩

/-- `createEye()`: eye cylinder placed on the head.  (The
`geometry.applyMatrix` call rotates vertex data only; no node transform.) -/
def createEye (dm : Dims) : Mesh :=
  let eyeRadius := dm.headRadius * 0.25     -- Eye is the 25% of the head
  let eyeHeight := eyeRadius / 2
  let eye := Mesh.new .eye (Geom.cylinder eyeRadius eyeRadius eyeHeight 30 30)
  let eye := eye.setCastShadow true
  let eye := eye.setPositionY (dm.headRadius / 2)
  let eye := eye.setPositionZ (dm.headRadius * 0.85)
  eye

/-- `createHead()`: head sphere over the body, with the eye as child;
records `this.head`. -/
def createHead (dm : Dims) (s : Slots) : Mesh × Slots :=
  let head := Mesh.new .head (Geom.sphere dm.headRadius 30 30)
  let head := head.setCastShadow true
  let head := head.setPositionY (dm.bodyHeight / 2)
  let head := head.add (createEye dm)
  (head, { s with head := some head })

/-- `createBody()`: body cylinder positioned over the axis, with the head
as child; records `this.body` (the recorded object aliases the returned
one, so the slot holds the node with its head child attached). -/
def createBody (dm : Dims) (s : Slots) : Mesh × Slots :=
  let bodyRadius := dm.bodyWidth * 0.5
  let body := Mesh.new .body (Geom.cylinder bodyRadius bodyRadius dm.bodyHeight 30 1)
  -- translateX / translateY on a freshly created, untransformed node
  let body := body.setPositionX (-bodyRadius - dm.legHeight * 0.125 / 2)
  let body := body.setPositionY (-(dm.bodyHeight / 2) + dm.headRadius / 2 + 0.25 * dm.legHeight)
  let body := body.setCastShadow true
  let hs := createHead dm s
  let body := body.add hs.1
  (body, { hs.2 with body := some body })

/-- `createFemur(side)`: femur cylinder; records `this.leftFemur` when
`side >= 0`, else `this.rightFemur`. -/
def createFemur (dm : Dims) (side : ℚ) (s : Slots) : Mesh × Slots :=
  let femurLength := dm.legHeight * 0.75
  let femurRadius := dm.legHeight * 0.09375 * 0.5
  let femur := Mesh.new .femur (Geom.cylinder femurRadius femurRadius femurLength 30 1)
  let femur := femur.setCastShadow true
  if side ≥ 0 then
    (femur, { s with leftFemur := some femur })
  else
    (femur, { s with rightFemur := some femur })

/-- `createShoulder(side)`: shoulder box above the femur; when
`side >= 0` it records `this.leftShoulder` and attaches the body subtree,
else it records `this.rightShoulder` with no body child. -/
def createShoulder (dm : Dims) (side : ℚ) (s : Slots) : Mesh × Slots :=
  let shoulderDimensions := dm.legHeight * 0.125
  let shoulder := Mesh.new .shoulder (Geom.box shoulderDimensions shoulderDimensions shoulderDimensions)
  let shoulder := shoulder.setCastShadow true
  let shoulder := shoulder.setPositionY (dm.legHeight * 0.75 / 2 + shoulderDimensions / 2)
  if side ≥ 0 then
    let bs := createBody dm s
    let shoulder := shoulder.add bs.1
    (shoulder, { bs.2 with leftShoulder := some shoulder })
  else
    (shoulder, { s with rightShoulder := some shoulder })

/-- `createFoot(side)`: foot cylinder with the femur and the shoulder as
children; `side >= 0` builds the left foot, otherwise the right one. -/
def createFoot (dm : Dims) (side : ℚ) (s : Slots) : Mesh × Slots :=
  -- Adjusts the side value
  let side : ℚ := if side ≥ 0 then 1 else -1
  let footHeight := dm.legHeight * 0.125
  let radiusTop := footHeight / 2
  let radiusBottom := dm.legHeight * 0.1875 / 2
  let foot := Mesh.new .foot (Geom.cylinder radiusTop radiusBottom footHeight 30 1)
  let foot := foot.setPositionY (dm.legHeight * 0.125 / 2)
  let foot := foot.setPositionX (side * (dm.bodyWidth / 2 + dm.legHeight * 0.125 / 2))
  let foot := foot.setCastShadow true
  let fs := createFemur dm side s
  let foot := foot.add fs.1
  let ss := createShoulder dm side fs.2
  let foot := foot.add ss.1
  (foot, ss.2)

/-- Robot life / movement constants (set once in the constructor and
never written again). -/
def MAX_ROBOT_ENERGY : ℚ := 100

def MAX_HEAD_ANGLE : ℚ := 80

def MIN_HEAD_ANGLE : ℚ := -80

def MAX_BODY_ANGLE : ℚ := 30

def MIN_BODY_ANGLE : ℚ := -45

def MAX_LEG_STRETCH : ℚ := 1.2        -- 20% of their normal length

def MIN_LEG_STRETCH : ℚ := 1

/-- Constructor parameters (`parameters.robotHeight` /
`parameters.robotWidth`); `none` models an `undefined` field. -/
structure RobotParameters where
  robotHeight : Option ℚ := none
  robotWidth : Option ℚ := none

/-- The observable state of a constructed `Robot`: the dimensions, the
vitality state and the named part nodes. -/
structure Robot where
  robotHeight : ℚ
  robotWidth : ℚ
  legHeight : ℚ
  bodyHeight : ℚ
  bodyWidth : ℚ
  headRadius : ℚ
  currentEnergy : ℚ
  currentPoints : ℚ
  currentRotation : ℚ
  isDead : Bool
  rightFoot : Mesh
  leftFoot : Mesh
  rightFemur : Mesh
  leftFemur : Mesh
  rightShoulder : Mesh
  leftShoulder : Mesh
  body : Mesh
  head : Mesh

/-- Placeholder for a slot the construction never filled; the
construction theorems show every slot is in fact filled, so this value
is never observable. -/
def emptyMesh : Mesh := Mesh.new .foot (Geom.box 0 0 0)

/-- The `Robot` constructor: computes the derived dimensions, initializes
the vitality state, and builds the right foot subtree then the left one
(recording the part slots along the way). -/
def mkRobot (parameters : RobotParameters) : Robot :=
  -- If no parameters are specified, use default values
  let robotHeight := parameters.robotHeight.getD 21
  let robotWidth := parameters.robotWidth.getD 12.5
  let legHeight := robotHeight * 0.7619
  let bodyHeight := robotHeight * 0.6667
  let bodyWidth := bodyHeight * 0.5
  let headRadius := robotHeight * 0.1428
  let dm : Dims := ⟨robotHeight, robotWidth, legHeight, bodyHeight, bodyWidth, headRadius⟩
  let currentEnergy := MAX_ROBOT_ENERGY
  let rf := createFoot dm (-1) Slots.empty
  let lf := createFoot dm 1 rf.2
  { robotHeight := robotHeight
    robotWidth := robotWidth
    legHeight := legHeight
    bodyHeight := bodyHeight
    bodyWidth := bodyWidth
    headRadius := headRadius
    currentEnergy := currentEnergy
    currentPoints := 0
    currentRotation := 0
    isDead := if currentEnergy < 0 then true else false
    rightFoot := rf.1
    leftFoot := lf.1
    rightFemur := lf.2.rightFemur.getD emptyMesh
    leftFemur := lf.2.leftFemur.getD emptyMesh
    rightShoulder := lf.2.rightShoulder.getD emptyMesh
    leftShoulder := lf.2.leftShoulder.getD emptyMesh
    body := lf.2.body.getD emptyMesh
    head := lf.2.head.getD emptyMesh }

/-- The clamp performed inside `setHeadRotation`. -/
def headClamp (rotation : ℚ) : ℚ :=
  if rotation > MAX_HEAD_ANGLE then MAX_HEAD_ANGLE
  else if rotation < MIN_HEAD_ANGLE then MIN_HEAD_ANGLE
  else rotation

/-- The clamp performed inside `setBodyRotation`. -/
def bodyClamp (rotation : ℚ) : ℚ :=
  if rotation > MAX_BODY_ANGLE then MAX_BODY_ANGLE
  else if rotation < MIN_BODY_ANGLE then MIN_BODY_ANGLE
  else rotation

/-- The clamp performed inside `setLegsScale`. -/
def legClamp (stretch : ℚ) : ℚ :=
  if stretch > MAX_LEG_STRETCH then MAX_LEG_STRETCH
  else if stretch < MIN_LEG_STRETCH then MIN_LEG_STRETCH
  else stretch

/-- `setHeadRotation(headRotation)`: when not dead, clamp, convert to
radians and write the head node's local Y rotation. -/
def Robot.setHeadRotation (r : Robot) (headRotation : ℚ) : Robot :=
  if !r.isDead then
    let rotation := degToRad (headClamp headRotation)
    { r with head := r.head.setRotationY rotation }
  else r

/-- `setBodyRotation(bodyRotation)`: when not dead, clamp, convert to
radians and write the body node's local X rotation. -/
def Robot.setBodyRotation (r : Robot) (bodyRotation : ℚ) : Robot :=
  if !r.isDead then
    let rotation := degToRad (bodyClamp bodyRotation)
    { r with body := r.body.setRotationX rotation }
  else r

/-- `setLegsScale(extraLength)`: when not dead, clamp the stretch, scale
both femurs in Y and reposition femurs and shoulders along Y. -/
def Robot.setLegsScale (r : Robot) (extraLength : ℚ) : Robot :=
  if !r.isDead then
    let stretch := legClamp extraLength
    { r with
      rightFemur := (r.rightFemur.setScale 1 stretch 1).setPositionY (r.legHeight * 0.75 / 2)
      leftFemur := (r.leftFemur.setScale 1 stretch 1).setPositionY (r.legHeight * 0.75 / 2)
      rightShoulder := r.rightShoulder.setPositionY (r.legHeight * 0.75 * stretch)
      leftShoulder := r.leftShoulder.setPositionY (r.legHeight * 0.75 * stretch) }
  else r

/-- `substractEnergy(damage)`: when not dead, subtract the damage and
mark the robot dead when the result is `<= 0`. -/
def Robot.substractEnergy (r : Robot) (damage : ℚ) : Robot :=
  if !r.isDead then
    let newEnergy := r.currentEnergy - damage
    if newEnergy ≤ 0 then
      { r with currentEnergy := newEnergy, isDead := true }
    else
      { r with currentEnergy := newEnergy }
  else r

/-- `addEnergy(energy)`: when not dead, add the energy, clamped at
`MAX_ROBOT_ENERGY`. -/
def Robot.addEnergy (r : Robot) (energy : ℚ) : Robot :=
  if !r.isDead then
    { r with currentEnergy :=
        if r.currentEnergy + energy > MAX_ROBOT_ENERGY then MAX_ROBOT_ENERGY
        else r.currentEnergy + energy }
  else r

/-- `addPoints(points)`: when not dead, add the indicated amount of
points. -/
def Robot.addPoints (r : Robot) (points : ℚ) : Robot :=
  if !r.isDead then
    { r with currentPoints := r.currentPoints + points }
  else r

@[simp] theorem Mesh.position_setPositionY (m : Mesh) (v : ℚ) :
    (m.setPositionY v).position = { m.position with y := v } := by
  cases m; rfl

@[simp] theorem Mesh.rotation_setRotationY (m : Mesh) (v : ℚ) :
    (m.setRotationY v).rotation = { m.rotation with y := v } := by
  cases m; rfl

@[simp] theorem Mesh.rotation_setRotationX (m : Mesh) (v : ℚ) :
    (m.setRotationX v).rotation = { m.rotation with x := v } := by
  cases m; rfl

@[simp] theorem Mesh.scale_setScale (m : Mesh) (a b c : ℚ) :
    (m.setScale a b c).scale = ⟨a, b, c⟩ := by
  cases m; rfl

@[simp] theorem Mesh.scale_setPositionY (m : Mesh) (v : ℚ) :
    (m.setPositionY v).scale = m.scale := by
  cases m; rfl

@[simp] theorem Mesh.position_setScale (m : Mesh) (a b c : ℚ) :
    (m.setScale a b c).position = m.position := by
  cases m; rfl

@[simp] theorem Mesh.setRotationY_setRotationY (m : Mesh) (v w : ℚ) :
    (m.setRotationY v).setRotationY w = m.setRotationY w := by
  cases m; rfl

@[simp] theorem Mesh.setRotationX_setRotationX (m : Mesh) (v w : ℚ) :
    (m.setRotationX v).setRotationX w = m.setRotationX w := by
  cases m; rfl

@[simp] theorem Mesh.setPositionY_setPositionY (m : Mesh) (v w : ℚ) :
    (m.setPositionY v).setPositionY w = m.setPositionY w := by
  cases m; rfl

@[simp] theorem Mesh.setScale_setScale (m : Mesh) (a b c a2 b2 c2 : ℚ) :
    (m.setScale a b c).setScale a2 b2 c2 = m.setScale a2 b2 c2 := by
  cases m; rfl

@[simp] theorem Mesh.setPositionY_then_setScale (m : Mesh) (v a b c : ℚ) :
    (m.setPositionY v).setScale a b c = (m.setScale a b c).setPositionY v := by
  cases m; rfl

theorem mkRobot_isDead (p : RobotParameters) : (mkRobot p).isDead = false := rfl

theorem mkRobot_currentEnergy (p : RobotParameters) : (mkRobot p).currentEnergy = 100 := rfl

theorem mkRobot_currentPoints (p : RobotParameters) : (mkRobot p).currentPoints = 0 := rfl

theorem headClamp_mem (d : ℚ) : -80 ≤ headClamp d ∧ headClamp d ≤ 80 := by
  unfold headClamp MAX_HEAD_ANGLE MIN_HEAD_ANGLE
  split_ifs with h1 h2 <;> constructor <;> linarith

theorem bodyClamp_mem (d : ℚ) : -45 ≤ bodyClamp d ∧ bodyClamp d ≤ 30 := by
  unfold bodyClamp MAX_BODY_ANGLE MIN_BODY_ANGLE
  split_ifs with h1 h2 <;> constructor <;> linarith

theorem legClamp_mem (s : ℚ) : 1 ≤ legClamp s ∧ legClamp s ≤ 1.2 := by
  unfold legClamp MAX_LEG_STRETCH MIN_LEG_STRETCH
  split_ifs with h1 h2 <;> constructor <;> linarith

/-- C1: once the robot's energy reaches `<= 0` through `substractEnergy`
the robot is dead, the dead state is irreversible, and every one of
`setHeadRotation`, `setBodyRotation`, `setLegsScale`, `substractEnergy`,
`addEnergy` and `addPoints` leaves the entire state of a dead robot
(energy, points, death flag and every part node) unchanged. -/
theorem C1_dead_state_invariant (r q : Robot) (d b s a e p dmg : ℚ)
    (hr : r.isDead = true) (hq : q.isDead = false)
    (hqE : q.currentEnergy - dmg ≤ 0) :
    r.setHeadRotation d = r ∧ r.setBodyRotation b = r ∧ r.setLegsScale s = r ∧
    r.substractEnergy a = r ∧ r.addEnergy e = r ∧ r.addPoints p = r ∧
    (q.substractEnergy dmg).isDead = true := by
  refine ⟨?_, ?_, ?_, ?_, ?_, ?_, ?_⟩ <;>
    simp [Robot.setHeadRotation, Robot.setBodyRotation, Robot.setLegsScale,
      Robot.substractEnergy, Robot.addEnergy, Robot.addPoints, hr, hq, hqE]

/-- Witness for C1 at a concrete input: the default robot killed by a
150-damage hit. -/
theorem C1_dead_state_invariant_witness :
    ((mkRobot {}).substractEnergy 150).isDead = true ∧
    (mkRobot {}).isDead = false ∧ (mkRobot {}).currentEnergy - 150 ≤ 0 ∧
    (((mkRobot {}).substractEnergy 150).setHeadRotation 5 = (mkRobot {}).substractEnergy 150 ∧
      ((mkRobot {}).substractEnergy 150).setBodyRotation 5 = (mkRobot {}).substractEnergy 150 ∧
      ((mkRobot {}).substractEnergy 150).setLegsScale 1.1 = (mkRobot {}).substractEnergy 150 ∧
      ((mkRobot {}).substractEnergy 150).substractEnergy 5 = (mkRobot {}).substractEnergy 150 ∧
      ((mkRobot {}).substractEnergy 150).addEnergy 5 = (mkRobot {}).substractEnergy 150 ∧
      ((mkRobot {}).substractEnergy 150).addPoints 5 = (mkRobot {}).substractEnergy 150 ∧
      ((mkRobot {}).substractEnergy 150).isDead = true) := by
  have h1 : ((mkRobot {}).substractEnergy 150).isDead = true := by
    norm_num [Robot.substractEnergy, mkRobot_isDead, mkRobot_currentEnergy]
  have h2 : (mkRobot {}).isDead = false := mkRobot_isDead {}
  have h3 : (mkRobot {}).currentEnergy - 150 ≤ 0 := by
    norm_num [mkRobot_currentEnergy]
  exact ⟨h1, h2, h3,
    C1_dead_state_invariant ((mkRobot {}).substractEnergy 150) (mkRobot {})
      5 5 1.1 5 5 5 150 h1 h2 h3⟩

/-- C2: on a live robot, `setHeadRotation` writes the input clamped to
[-80, 80] degrees, converted to radians, to the head's local Y rotation;
`setBodyRotation` writes the input clamped to [-45, 30] to the body's
local X rotation; `setLegsScale` writes the stretch clamped to
[1.0, 1.2] to both femurs' Y scale; inputs far outside range (99999 and
-99999) degrade to the nearest bound. -/
theorem C2_motion_clamped (r : Robot) (d b s : ℚ) (hr : r.isDead = false) :
    (-80 ≤ headClamp d ∧ headClamp d ≤ 80 ∧
      (r.setHeadRotation d).head.rotation.y = degToRad (headClamp d)) ∧
    (-45 ≤ bodyClamp b ∧ bodyClamp b ≤ 30 ∧
      (r.setBodyRotation b).body.rotation.x = degToRad (bodyClamp b)) ∧
    (1 ≤ legClamp s ∧ legClamp s ≤ 1.2 ∧
      (r.setLegsScale s).leftFemur.scale.y = legClamp s ∧
      (r.setLegsScale s).rightFemur.scale.y = legClamp s) ∧
    (headClamp 99999 = 80 ∧ headClamp (-99999) = -80 ∧
      bodyClamp 99999 = 30 ∧ bodyClamp (-99999) = -45 ∧
      legClamp 99999 = 1.2 ∧ legClamp (-99999) = 1) := by
  refine ⟨⟨(headClamp_mem d).1, (headClamp_mem d).2, ?_⟩,
    ⟨(bodyClamp_mem b).1, (bodyClamp_mem b).2, ?_⟩,
    ⟨(legClamp_mem s).1, (legClamp_mem s).2, ?_, ?_⟩, ?_⟩
  · simp [Robot.setHeadRotation, hr]
  · simp [Robot.setBodyRotation, hr]
  · simp [Robot.setLegsScale, hr]
  · simp [Robot.setLegsScale, hr]
  · norm_num [headClamp, bodyClamp, legClamp, MAX_HEAD_ANGLE, MIN_HEAD_ANGLE,
      MAX_BODY_ANGLE, MIN_BODY_ANGLE, MAX_LEG_STRETCH, MIN_LEG_STRETCH]

/-- Witness for C2 at a concrete input: the freshly constructed default
robot with inputs 100, -100 and 5. -/
theorem C2_motion_clamped_witness :
    (mkRobot {}).isDead = false ∧
    ((-80 ≤ headClamp 100 ∧ headClamp 100 ≤ 80 ∧
      ((mkRobot {}).setHeadRotation 100).head.rotation.y = degToRad (headClamp 100)) ∧
    (-45 ≤ bodyClamp (-100) ∧ bodyClamp (-100) ≤ 30 ∧
      ((mkRobot {}).setBodyRotation (-100)).body.rotation.x = degToRad (bodyClamp (-100))) ∧
    (1 ≤ legClamp 5 ∧ legClamp 5 ≤ 1.2 ∧
      ((mkRobot {}).setLegsScale 5).leftFemur.scale.y = legClamp 5 ∧
      ((mkRobot {}).setLegsScale 5).rightFemur.scale.y = legClamp 5) ∧
    (headClamp 99999 = 80 ∧ headClamp (-99999) = -80 ∧
      bodyClamp 99999 = 30 ∧ bodyClamp (-99999) = -45 ∧
      legClamp 99999 = 1.2 ∧ legClamp (-99999) = 1)) :=
  ⟨mkRobot_isDead {}, C2_motion_clamped (mkRobot {}) 100 (-100) 5 (mkRobot_isDead {})⟩

/-- C3 counterexample: from the initial state (energy exactly 100),
`substractEnergy 150` drives the energy to -50, outside the claimed
[0, 100] range, so the bound 0 ≤ energy does not always hold. -/
theorem C3_energy_counterexample :
    ((mkRobot {}).substractEnergy 150).currentEnergy = -50 ∧
    ¬ (0 ≤ ((mkRobot {}).substractEnergy 150).currentEnergy) := by
  norm_num [Robot.substractEnergy, mkRobot_isDead, mkRobot_currentEnergy]

/-- C3 (amended): the energy is initialized to exactly 100
(`MAX_ROBOT_ENERGY`); `substractEnergy` with a non-negative damage never
increases the energy (but may drive it below 0); `addEnergy` with a
non-negative amount never decreases the energy and, whenever the energy
was at most 100, never pushes it above 100 (it clamps at the max). -/
theorem C3_energy_amended (r : Robot) (a e : ℚ) (ha : 0 ≤ a) (he : 0 ≤ e)
    (hcap : r.currentEnergy ≤ 100) :
    (mkRobot {}).currentEnergy = 100 ∧ MAX_ROBOT_ENERGY = 100 ∧
    (r.substractEnergy a).currentEnergy ≤ r.currentEnergy ∧
    r.currentEnergy ≤ (r.addEnergy e).currentEnergy ∧
    (r.addEnergy e).currentEnergy ≤ 100 := by
  refine ⟨mkRobot_currentEnergy {}, rfl, ?_, ?_, ?_⟩
  · cases hr : r.isDead
    · simp only [Robot.substractEnergy, hr, Bool.not_false, if_true]
      split_ifs <;> simp <;> linarith
    · simp [Robot.substractEnergy, hr]
  · cases hr : r.isDead
    · simp only [Robot.addEnergy, hr, Bool.not_false, if_true]
      split_ifs with h <;> simp [MAX_ROBOT_ENERGY] at h ⊢ <;> linarith
    · simp [Robot.addEnergy, hr]
  · cases hr : r.isDead
    · simp only [Robot.addEnergy, hr, Bool.not_false, if_true]
      split_ifs with h <;> simp [MAX_ROBOT_ENERGY] at h ⊢ <;> linarith
    · simp [Robot.addEnergy, hr]
      linarith

/-- Witness for C3 (amended) at a concrete input: the default robot with
damage 30 and heal 50. -/
theorem C3_energy_amended_witness :
    0 ≤ (30 : ℚ) ∧ 0 ≤ (50 : ℚ) ∧ (mkRobot {}).currentEnergy ≤ 100 ∧
    ((mkRobot {}).currentEnergy = 100 ∧ MAX_ROBOT_ENERGY = 100 ∧
      ((mkRobot {}).substractEnergy 30).currentEnergy ≤ (mkRobot {}).currentEnergy ∧
      (mkRobot {}).currentEnergy ≤ ((mkRobot {}).addEnergy 50).currentEnergy ∧
      ((mkRobot {}).addEnergy 50).currentEnergy ≤ 100) := by
  have h1 : (0 : ℚ) ≤ 30 := by norm_num
  have h2 : (0 : ℚ) ≤ 50 := by norm_num
  have h3 : (mkRobot {}).currentEnergy ≤ 100 := by norm_num [mkRobot_currentEnergy]
  exact ⟨h1, h2, h3, C3_energy_amended (mkRobot {}) 30 50 h1 h2 h3⟩

/-- C4: for every construction with positive height and width the
derived dimensions follow the fixed ratios exactly: the stored
dimensions (legHeight, bodyHeight, bodyWidth, headRadius), the foot
cylinder (radiusTop = footHeight / 2, radiusBottom =
legHeight × 0.1875 / 2, footHeight = legHeight × 0.125), the femur
cylinder (radius = legHeight × 0.09375 × 0.5, length =
legHeight × 0.75), the shoulder cube (side = legHeight × 0.125), the
head sphere (radius = headRadius) and the eye cylinder (eyeRadius =
headRadius × 0.25, eyeHeight = eyeRadius / 2); omitted parameters
default to height 21 and width 12.5, giving legHeight = 15.9999 and
headRadius = 2.9988 exactly. -/
theorem C4_proportions (hgt w : ℚ) (hh : 0 < hgt) (hw : 0 < w) :
    (mkRobot { robotHeight := some hgt, robotWidth := some w }).legHeight = hgt * 0.7619 ∧
    (mkRobot { robotHeight := some hgt, robotWidth := some w }).bodyHeight = hgt * 0.6667 ∧
    (mkRobot { robotHeight := some hgt, robotWidth := some w }).bodyWidth =
      (mkRobot { robotHeight := some hgt, robotWidth := some w }).bodyHeight * 0.5 ∧
    (mkRobot { robotHeight := some hgt, robotWidth := some w }).headRadius = hgt * 0.1428 ∧
    (mkRobot { robotHeight := some hgt, robotWidth := some w }).leftFoot.geometry =
      Geom.cylinder
        ((mkRobot { robotHeight := some hgt, robotWidth := some w }).legHeight * 0.125 / 2)
        ((mkRobot { robotHeight := some hgt, robotWidth := some w }).legHeight * 0.1875 / 2)
        ((mkRobot { robotHeight := some hgt, robotWidth := some w }).legHeight * 0.125) 30 1 ∧
    (mkRobot { robotHeight := some hgt, robotWidth := some w }).rightFoot.geometry =
      (mkRobot { robotHeight := some hgt, robotWidth := some w }).leftFoot.geometry ∧
    (mkRobot { robotHeight := some hgt, robotWidth := some w }).leftFemur.geometry =
      Geom.cylinder
        ((mkRobot { robotHeight := some hgt, robotWidth := some w }).legHeight * 0.09375 * 0.5)
        ((mkRobot { robotHeight := some hgt, robotWidth := some w }).legHeight * 0.09375 * 0.5)
        ((mkRobot { robotHeight := some hgt, robotWidth := some w }).legHeight * 0.75) 30 1 ∧
    (mkRobot { robotHeight := some hgt, robotWidth := some w }).leftShoulder.geometry =
      Geom.box
        ((mkRobot { robotHeight := some hgt, robotWidth := some w }).legHeight * 0.125)
        ((mkRobot { robotHeight := some hgt, robotWidth := some w }).legHeight * 0.125)
        ((mkRobot { robotHeight := some hgt, robotWidth := some w }).legHeight * 0.125) ∧
    (mkRobot { robotHeight := some hgt, robotWidth := some w }).head.geometry =
      Geom.sphere ((mkRobot { robotHeight := some hgt, robotWidth := some w }).headRadius) 30 30 ∧
    ((mkRobot { robotHeight := some hgt, robotWidth := some w }).head.children.map Mesh.geometry) =
      [Geom.cylinder
        ((mkRobot { robotHeight := some hgt, robotWidth := some w }).headRadius * 0.25)
        ((mkRobot { robotHeight := some hgt, robotWidth := some w }).headRadius * 0.25)
        ((mkRobot { robotHeight := some hgt, robotWidth := some w }).headRadius * 0.25 / 2) 30 30] ∧
    (mkRobot {}).robotHeight = 21 ∧ (mkRobot {}).robotWidth = 12.5 ∧
    (mkRobot {}).legHeight = 15.9999 ∧ (mkRobot {}).headRadius = 2.9988 := by
  refine ⟨rfl, rfl, rfl, rfl, rfl, rfl, rfl, rfl, rfl, rfl, rfl, rfl, ?_, ?_⟩ <;>
    norm_num [mkRobot]

/-- Witness for C4 at a concrete input: height 21 and width 12.5. -/
theorem C4_proportions_witness :
    0 < (21 : ℚ) ∧ 0 < (12.5 : ℚ) ∧
    (mkRobot { robotHeight := some 21, robotWidth := some 12.5 }).legHeight = 21 * 0.7619 ∧
    (mkRobot { robotHeight := some 21, robotWidth := some 12.5 }).headRadius = 21 * 0.1428 := by
  have h1 : (0 : ℚ) < 21 := by norm_num
  have h2 : (0 : ℚ) < 12.5 := by norm_num
  have h := C4_proportions 21 12.5 h1 h2
  exact ⟨h1, h2, h.1, h.2.2.2.1⟩

/-- C5: on a live robot, `setLegsScale` sets both femurs' Y scale to the
clamped stretch, both femurs' Y position to legHeight × 0.75 / 2
(independent of the stretch), and both shoulders' Y position to
legHeight × 0.75 × (clamped stretch); in particular `setLegsScale 5`
applies stretch 1.2 and places both shoulders of the default robot at
Y = legHeight × 0.75 × 1.2. -/
theorem C5_legs_scale (r : Robot) (s : ℚ) (hr : r.isDead = false) :
    (r.setLegsScale s).leftFemur.scale.y = legClamp s ∧
    (r.setLegsScale s).rightFemur.scale.y = legClamp s ∧
    (r.setLegsScale s).leftFemur.position.y = r.legHeight * 0.75 / 2 ∧
    (r.setLegsScale s).rightFemur.position.y = r.legHeight * 0.75 / 2 ∧
    (r.setLegsScale s).leftShoulder.position.y = r.legHeight * 0.75 * legClamp s ∧
    (r.setLegsScale s).rightShoulder.position.y = r.legHeight * 0.75 * legClamp s ∧
    legClamp 5 = 1.2 ∧
    ((mkRobot {}).setLegsScale 5).leftShoulder.position.y =
      (mkRobot {}).legHeight * 0.75 * 1.2 ∧
    ((mkRobot {}).setLegsScale 5).rightShoulder.position.y =
      (mkRobot {}).legHeight * 0.75 * 1.2 := by
  have h5 : legClamp 5 = 1.2 := by
    norm_num [legClamp, MAX_LEG_STRETCH, MIN_LEG_STRETCH]
  refine ⟨?_, ?_, ?_, ?_, ?_, ?_, h5, ?_, ?_⟩ <;>
    simp [Robot.setLegsScale, hr, mkRobot_isDead, h5]

/-- Witness for C5 at a concrete input: the default robot with input 5. -/
theorem C5_legs_scale_witness :
    (mkRobot {}).isDead = false ∧
    (((mkRobot {}).setLegsScale 5).leftFemur.scale.y = legClamp 5 ∧
      ((mkRobot {}).setLegsScale 5).rightFemur.scale.y = legClamp 5 ∧
      ((mkRobot {}).setLegsScale 5).leftFemur.position.y = (mkRobot {}).legHeight * 0.75 / 2 ∧
      ((mkRobot {}).setLegsScale 5).rightFemur.position.y = (mkRobot {}).legHeight * 0.75 / 2 ∧
      ((mkRobot {}).setLegsScale 5).leftShoulder.position.y =
        (mkRobot {}).legHeight * 0.75 * legClamp 5 ∧
      ((mkRobot {}).setLegsScale 5).rightShoulder.position.y =
        (mkRobot {}).legHeight * 0.75 * legClamp 5 ∧
      legClamp 5 = 1.2 ∧
      ((mkRobot {}).setLegsScale 5).leftShoulder.position.y =
        (mkRobot {}).legHeight * 0.75 * 1.2 ∧
      ((mkRobot {}).setLegsScale 5).rightShoulder.position.y =
        (mkRobot {}).legHeight * 0.75 * 1.2) :=
  ⟨mkRobot_isDead {}, C5_legs_scale (mkRobot {}) 5 (mkRobot_isDead {})⟩

/-- C6: each motion setter is idempotent — on any robot state, calling
`setHeadRotation`, `setBodyRotation` or `setLegsScale` twice with the
same input produces exactly the state of a single call. -/
theorem C6_setters_idempotent (r : Robot) (d b s : ℚ) :
    (r.setHeadRotation d).setHeadRotation d = r.setHeadRotation d ∧
    (r.setBodyRotation b).setBodyRotation b = r.setBodyRotation b ∧
    (r.setLegsScale s).setLegsScale s = r.setLegsScale s := by
  refine ⟨?_, ?_, ?_⟩ <;> cases hr : r.isDead <;>
    simp [Robot.setHeadRotation, Robot.setBodyRotation, Robot.setLegsScale, hr]

/-- C7 counterexample: `addPoints (-5)` on the default robot makes the
points accumulator negative and strictly smaller than before, so the
points are neither always non-negative nor only increasing. -/
theorem C7_points_counterexample :
    ((mkRobot {}).addPoints (-5)).currentPoints = -5 ∧
    ((mkRobot {}).addPoints (-5)).currentPoints < (mkRobot {}).currentPoints ∧
    ((mkRobot {}).addPoints (-5)).currentPoints < 0 := by
  norm_num [Robot.addPoints, mkRobot_isDead, mkRobot_currentPoints]

/-- C7 (amended): the points accumulator starts at 0; for every
non-negative amount `addPoints` never decreases it and keeps it
non-negative, and on a dead robot `addPoints` leaves it unchanged. -/
theorem C7_points_amended (r q : Robot) (p p2 : ℚ) (hp : 0 ≤ p)
    (hr : 0 ≤ r.currentPoints) (hq : q.isDead = true) :
    (mkRobot {}).currentPoints = 0 ∧
    r.currentPoints ≤ (r.addPoints p).currentPoints ∧
    0 ≤ (r.addPoints p).currentPoints ∧
    (q.addPoints p2).currentPoints = q.currentPoints := by
  refine ⟨mkRobot_currentPoints {}, ?_, ?_, ?_⟩
  · cases hd : r.isDead <;> simp [Robot.addPoints, hd] <;> linarith
  · cases hd : r.isDead <;> simp [Robot.addPoints, hd] <;> linarith
  · simp [Robot.addPoints, hq]

/-- Witness for C7 (amended) at a concrete input: the default robot with
amount 7, and the robot killed by a 150-damage hit with amount 3. -/
theorem C7_points_amended_witness :
    0 ≤ (7 : ℚ) ∧ 0 ≤ (mkRobot {}).currentPoints ∧
    ((mkRobot {}).substractEnergy 150).isDead = true ∧
    ((mkRobot {}).currentPoints = 0 ∧
      (mkRobot {}).currentPoints ≤ ((mkRobot {}).addPoints 7).currentPoints ∧
      0 ≤ ((mkRobot {}).addPoints 7).currentPoints ∧
      (((mkRobot {}).substractEnergy 150).addPoints 3).currentPoints =
        ((mkRobot {}).substractEnergy 150).currentPoints) := by
  have h1 : (0 : ℚ) ≤ 7 := by norm_num
  have h2 : 0 ≤ (mkRobot {}).currentPoints := by norm_num [mkRobot_currentPoints]
  have h3 : ((mkRobot {}).substractEnergy 150).isDead = true := by
    norm_num [Robot.substractEnergy, mkRobot_isDead, mkRobot_currentEnergy]
  exact ⟨h1, h2, h3,
    C7_points_amended (mkRobot {}) ((mkRobot {}).substractEnergy 150) 7 3 h1 h2 h3⟩

/-- C8: construction always attaches the single body → head → eye chain
under the left shoulder only (the shoulder created with `side >= 0`),
the right shoulder has no body child, each `createFoot` subtree is
rooted at the foot with the created femur and shoulder as its children,
and the named slots (`leftFemur`/`rightFemur`,
`leftShoulder`/`rightShoulder`, `body`, `head`) hold exactly the nodes
sitting in the constructed trees. -/
theorem C8_construction_structure (p : RobotParameters) :
    (mkRobot p).leftFoot.kind = PartKind.foot ∧
    (mkRobot p).rightFoot.kind = PartKind.foot ∧
    (mkRobot p).leftFoot.children = [(mkRobot p).leftFemur, (mkRobot p).leftShoulder] ∧
    (mkRobot p).rightFoot.children = [(mkRobot p).rightFemur, (mkRobot p).rightShoulder] ∧
    (mkRobot p).leftFemur.kind = PartKind.femur ∧
    (mkRobot p).rightFemur.kind = PartKind.femur ∧
    (mkRobot p).leftShoulder.kind = PartKind.shoulder ∧
    (mkRobot p).rightShoulder.kind = PartKind.shoulder ∧
    (mkRobot p).leftShoulder.children = [(mkRobot p).body] ∧
    (mkRobot p).rightShoulder.children = [] ∧
    (mkRobot p).body.kind = PartKind.body ∧
    (mkRobot p).body.children = [(mkRobot p).head] ∧
    (mkRobot p).head.kind = PartKind.head ∧
    (mkRobot p).head.children.map Mesh.kind = [PartKind.eye] :=
  ⟨rfl, rfl, rfl, rfl, rfl, rfl, rfl, rfl, rfl, rfl, rfl, rfl, rfl, rfl⟩

/-- C9: `addEnergy` modifies only `currentEnergy` — every other field,
in particular `isDead` and `currentPoints`, is unchanged — and performs
no death check: `addEnergy (-150)` on the default robot leaves the
energy at -50 with `isDead` still false, and the motion setters keep
operating afterwards. -/
theorem C9_addEnergy_frame (r : Robot) (e : ℚ) :
    r.addEnergy e = { r with currentEnergy := (r.addEnergy e).currentEnergy } ∧
    (r.addEnergy e).isDead = r.isDead ∧
    (r.addEnergy e).currentPoints = r.currentPoints ∧
    ((mkRobot {}).addEnergy (-150)).currentEnergy = -50 ∧
    ((mkRobot {}).addEnergy (-150)).currentEnergy ≤ 0 ∧
    ((mkRobot {}).addEnergy (-150)).isDead = false ∧
    (((mkRobot {}).addEnergy (-150)).setHeadRotation 10).head.rotation.y = degToRad 10 ∧
    (((mkRobot {}).addEnergy (-150)).setLegsScale 1.1).leftFemur.scale.y = 1.1 := by
  have hc : headClamp 10 = 10 := by
    norm_num [headClamp, MAX_HEAD_ANGLE, MIN_HEAD_ANGLE]
  have hs : legClamp (11 / 10) = 11 / 10 := by
    norm_num [legClamp, MAX_LEG_STRETCH, MIN_LEG_STRETCH]
  refine ⟨?_, ?_, ?_, ?_, ?_, ?_, ?_, ?_⟩
  · cases hr : r.isDead
    · simp [Robot.addEnergy, hr]
    · cases r
      simp_all [Robot.addEnergy]
  · cases hr : r.isDead <;> simp [Robot.addEnergy, hr]
  · cases hr : r.isDead <;> simp [Robot.addEnergy, hr]
  · norm_num [Robot.addEnergy, mkRobot_isDead, mkRobot_currentEnergy, MAX_ROBOT_ENERGY]
  · norm_num [Robot.addEnergy, mkRobot_isDead, mkRobot_currentEnergy, MAX_ROBOT_ENERGY]
  · norm_num [Robot.addEnergy, mkRobot_isDead, mkRobot_currentEnergy, MAX_ROBOT_ENERGY]
  · norm_num [Robot.addEnergy, Robot.setHeadRotation, mkRobot_isDead,
      mkRobot_currentEnergy, MAX_ROBOT_ENERGY, hc]
  · norm_num [Robot.addEnergy, Robot.setLegsScale, mkRobot_isDead,
      mkRobot_currentEnergy, MAX_ROBOT_ENERGY, hs]

/-- C10: for any construction with positive height, the shoulders start
at Y = legHeight × 0.75 / 2 + legHeight × 0.125 / 2 and the femurs at
Y = 0, whereas already the first `setLegsScale 1` (the neutral stretch)
on the live figure moves the shoulders to Y = legHeight × 0.75 and the
femurs to Y = legHeight × 0.75 / 2 — values different from the
construction-time ones, so even the identity stretch changes the pose. -/
theorem C10_neutral_stretch_changes_pose (hgt w : ℚ) (hh : 0 < hgt) :
    (mkRobot { robotHeight := some hgt, robotWidth := some w }).leftShoulder.position.y =
      (mkRobot { robotHeight := some hgt, robotWidth := some w }).legHeight * 0.75 / 2 +
      (mkRobot { robotHeight := some hgt, robotWidth := some w }).legHeight * 0.125 / 2 ∧
    (mkRobot { robotHeight := some hgt, robotWidth := some w }).rightShoulder.position.y =
      (mkRobot { robotHeight := some hgt, robotWidth := some w }).legHeight * 0.75 / 2 +
      (mkRobot { robotHeight := some hgt, robotWidth := some w }).legHeight * 0.125 / 2 ∧
    (mkRobot { robotHeight := some hgt, robotWidth := some w }).leftFemur.position.y = 0 ∧
    (mkRobot { robotHeight := some hgt, robotWidth := some w }).rightFemur.position.y = 0 ∧
    ((mkRobot { robotHeight := some hgt, robotWidth := some w }).setLegsScale 1).leftShoulder.position.y =
      (mkRobot { robotHeight := some hgt, robotWidth := some w }).legHeight * 0.75 ∧
    ((mkRobot { robotHeight := some hgt, robotWidth := some w }).setLegsScale 1).rightShoulder.position.y =
      (mkRobot { robotHeight := some hgt, robotWidth := some w }).legHeight * 0.75 ∧
    ((mkRobot { robotHeight := some hgt, robotWidth := some w }).setLegsScale 1).leftFemur.position.y =
      (mkRobot { robotHeight := some hgt, robotWidth := some w }).legHeight * 0.75 / 2 ∧
    ((mkRobot { robotHeight := some hgt, robotWidth := some w }).setLegsScale 1).rightFemur.position.y =
      (mkRobot { robotHeight := some hgt, robotWidth := some w }).legHeight * 0.75 / 2 ∧
    ((mkRobot { robotHeight := some hgt, robotWidth := some w }).setLegsScale 1).leftShoulder.position.y ≠
      (mkRobot { robotHeight := some hgt, robotWidth := some w }).leftShoulder.position.y ∧
    ((mkRobot { robotHeight := some hgt, robotWidth := some w }).setLegsScale 1).leftFemur.position.y ≠
      (mkRobot { robotHeight := some hgt, robotWidth := some w }).leftFemur.position.y := by
  have hc1 : legClamp 1 = 1 := by
    norm_num [legClamp, MAX_LEG_STRETCH, MIN_LEG_STRETCH]
  have hL : (mkRobot { robotHeight := some hgt, robotWidth := some w }).legHeight =
      hgt * 0.7619 := rfl
  have hLpos : 0 < (mkRobot { robotHeight := some hgt, robotWidth := some w }).legHeight := by
    rw [hL]
    positivity
  have h5 : ((mkRobot { robotHeight := some hgt, robotWidth := some w }).setLegsScale 1).leftShoulder.position.y =
      (mkRobot { robotHeight := some hgt, robotWidth := some w }).legHeight * 0.75 := by
    simp [Robot.setLegsScale, mkRobot_isDead, hc1]
  have h7 : ((mkRobot { robotHeight := some hgt, robotWidth := some w }).setLegsScale 1).leftFemur.position.y =
      (mkRobot { robotHeight := some hgt, robotWidth := some w }).legHeight * 0.75 / 2 := by
    simp [Robot.setLegsScale, mkRobot_isDead, hc1]
  refine ⟨rfl, rfl, rfl, rfl, h5, ?_, h7, ?_, ?_, ?_⟩
  · simp [Robot.setLegsScale, mkRobot_isDead, hc1]
  · simp [Robot.setLegsScale, mkRobot_isDead, hc1]
  · rw [h5]
    intro heq
    have hcon : (mkRobot { robotHeight := some hgt, robotWidth := some w }).leftShoulder.position.y =
        (mkRobot { robotHeight := some hgt, robotWidth := some w }).legHeight * 0.75 / 2 +
        (mkRobot { robotHeight := some hgt, robotWidth := some w }).legHeight * 0.125 / 2 := rfl
    rw [hcon] at heq
    nlinarith [hLpos]
  · rw [h7]
    intro heq
    have hcon : (mkRobot { robotHeight := some hgt, robotWidth := some w }).leftFemur.position.y =
        0 := rfl
    rw [hcon] at heq
    nlinarith [hLpos]

/-- Witness for C10 at a concrete input: height 21, width 12.5. -/
theorem C10_neutral_stretch_changes_pose_witness :
    0 < (21 : ℚ) ∧
    (((mkRobot { robotHeight := some 21, robotWidth := some 12.5 }).setLegsScale 1).leftShoulder.position.y ≠
      (mkRobot { robotHeight := some 21, robotWidth := some 12.5 }).leftShoulder.position.y ∧
    ((mkRobot { robotHeight := some 21, robotWidth := some 12.5 }).setLegsScale 1).leftFemur.position.y ≠
      (mkRobot { robotHeight := some 21, robotWidth := some 12.5 }).leftFemur.position.y) := by
  have h1 : (0 : ℚ) < 21 := by norm_num
  have h := C10_neutral_stretch_changes_pose 21 12.5 h1
  exact ⟨h1, h.2.2.2.2.2.2.2.2.1, h.2.2.2.2.2.2.2.2.2⟩
